import Mathlib

/-!
# Verification of the ccu-jack lifecycle orchestrator (src/main.go)

Shallow embedding of the startup/shutdown orchestration, the certificate
bootstrap, the CORS wiring and the event-forwarding chain construction of
`main.go`, together with theorems settling the frozen claims about them.

The effectful Go code is embedded as pure functions over explicit state:
the file system is a map from file names to entries (optional contents plus
the classification of the `os.Stat` error), and `run()` is a function from
an environment (configuration outcome, file system, wait-select outcome) to
a trace of the lifecycle events it performs plus its returned error and the
final file system.
-/

namespace CcuJack

/-! ## Constants (src/main.go lines 27-43) -/

def appDisplayName : String := "CCU-Jack"

def configFile : String := "ccu-jack.cfg"

def caCertFile : String := "cacert.pem"

def caKeyFile : String := "cacert.key"

def serverCertFile : String := "svrcert.pem"

def serverKeyFile : String := "svrcert.key"

/-! ## File-system model for the certificate bootstrap -/

/-- Classification of the error returned by `os.Stat` for a file:
`ok` (no error, the file exists), `errNotExist` (the error satisfies
`os.IsNotExist`), or `errOther` (some other error, e.g. a permission
error). -/
inductive StatRes
  | ok
  | errNotExist
  | errOther
deriving DecidableEq, Repr

/-- `os.IsNotExist` applied to a stat result (`os.IsNotExist(nil) = false`). -/
def isNotExist : StatRes → Bool
  | .errNotExist => true
  | _ => false

/-- One file of the modelled file system: its contents when it exists, and
what `os.Stat` reports for it. -/
structure FileEntry where
  content : Option String
  stat : StatRes
deriving DecidableEq, Repr

/-- A file system maps file names to entries. -/
def FS := String → FileEntry

/-- A well-formed file system: a file that has contents (exists) is never
reported as non-existent by `os.Stat`. -/
def WFFS (fs : FS) : Prop :=
  ∀ name, ((fs name).content).isSome → (fs name).stat ≠ StatRes.errNotExist

/-! ## Certificate generator (src/main.go lines 133-148) -/

/-- The `httputil.CertGenerator` configuration value built in
`certificates()`. Times are modelled as seconds (`Nat`). -/
structure CertGenerator where
  hosts : List String
  organization : String
  notBefore : Nat
  notAfter : Nat
  caCert : String
  caKey : String
  serverCert : String
  serverKey : String
deriving DecidableEq, Repr

/-- `10 * 365 * 24 * time.Hour` (line 140), in seconds: the fixed ten-year
validity window (ten 365-day years). -/
def tenYears : Nat := 10 * 365 * 24 * 3600

/-- The generator exactly as `certificates()` fills it in (lines 136-145):
the configured host name, the application display name as organization, a
validity window from `now` to `now + tenYears`, and the four fixed file
names. -/
def certGenerator (hostName : String) (now : Nat) : CertGenerator :=
  { hosts := [hostName]
    organization := appDisplayName
    notBefore := now
    notAfter := now + tenYears
    caCert := caCertFile
    caKey := caKeyFile
    serverCert := serverCertFile
    serverKey := serverKeyFile }

/-- Contents of the generated CA certificate, as an opaque-but-distinct
rendering of the generator parameters that determine it. -/
def caCertContent (g : CertGenerator) : String :=
  "cacert:" ++ g.organization ++ ":" ++ toString g.notBefore ++ ":" ++ toString g.notAfter

/-- Contents of the generated CA key. -/
def caKeyContent (g : CertGenerator) : String :=
  "cakey:" ++ g.organization ++ ":" ++ toString g.notBefore

/-- Contents of the generated server certificate. -/
def serverCertContent (g : CertGenerator) : String :=
  "svrcert:" ++ String.intercalate "," g.hosts ++ ":" ++ g.organization ++ ":"
    ++ toString g.notBefore ++ ":" ++ toString g.notAfter

/-- Contents of the generated server key. -/
def serverKeyContent (g : CertGenerator) : String :=
  "svrkey:" ++ String.intercalate "," g.hosts ++ ":" ++ toString g.notBefore

/-- `gen.Generate()` on success: writes the four certificate files; every
other file is untouched. -/
def generate (g : CertGenerator) (fs : FS) : FS := fun name =>
  if name = g.caCert then ⟨some (caCertContent g), .ok⟩
  else if name = g.caKey then ⟨some (caKeyContent g), .ok⟩
  else if name = g.serverCert then ⟨some (serverCertContent g), .ok⟩
  else if name = g.serverKey then ⟨some (serverKeyContent g), .ok⟩
  else fs name

/-- The presence test of `certificates()` (lines 122-126):
`!os.IsNotExist(errCert) && !os.IsNotExist(errKey)` for the stats of the
server certificate and the server key file. -/
def certPairPresent (fs : FS) : Bool :=
  !(isNotExist (fs serverCertFile).stat) && !(isNotExist (fs serverKeyFile).stat)

/-- `certificates()` (lines 120-151): if the presence test holds, return
nil and touch nothing; otherwise run the generator. `genErr` is the
environment's choice of whether `gen.Generate()` fails (and with which
error); on failure the error is returned. Result: the returned error and
the resulting file system. -/
def certificates (fs : FS) (hostName : String) (now : Nat) (genErr : Option String) :
    Option String × FS :=
  if certPairPresent fs then (none, fs)
  else
    match genErr with
    | some e => (some e, fs)
    | none => (none, generate (certGenerator hostName now) fs)

/-! ## CORS wiring (src/main.go lines 207-219) -/

/-- The effective CORS policy a `handlers.CORS(opts...)` wrapper enforces,
at the level of the options `startupBase` passes: whether every origin is
allowed, the explicit allowed-origin list otherwise, and whether
credentials are allowed. -/
structure CORSPolicy where
  allowAllOrigins : Bool
  allowedOrigins : List String
  allowCredentials : Bool
deriving DecidableEq, Repr

/-- The CORS policy built in `startupBase` from the configured origin list
(lines 209-216): with an empty list only `AllowedMethods` is passed, and
`handlers.CORS` defaults to allowing every origin with credentials
disallowed; with a non-empty list exactly `AllowedOrigins(list)` and
`AllowCredentials()` are passed in addition. -/
def corsPolicy (corsOrigins : List String) : CORSPolicy :=
  if corsOrigins.isEmpty then
    { allowAllOrigins := true, allowedOrigins := [], allowCredentials := false }
  else
    { allowAllOrigins := false, allowedOrigins := corsOrigins, allowCredentials := true }

/-! ## Event-forwarding chain (src/main.go lines 273-278) -/

/-- The sinks an event-chain stage can target. -/
inductive Sink
  | mqttBroker
  | deviceCol
deriving DecidableEq, Repr

/-- The `mqtt.EventReceiver` value as constructed in `startupApp`
(lines 274-278): its broker and its `Next` forwarding target. -/
structure EventReceiver where
  broker : Sink
  next : Sink
deriving DecidableEq, Repr

/-- The receiver built in `startupApp`: broker is the MQTT broker, `Next`
is the device collection. -/
def mqttReceiver : EventReceiver :=
  { broker := .mqttBroker, next := .deviceCol }

/-- What a chain stage does with an event. -/
inductive StageKind
  | publish
  | forward
deriving DecidableEq, Repr

/-- Modelled from the spec: the handler order of `mqtt.EventReceiver`
(package `mqtt` of this repository, whose source is not in `src/`) — for
every raw controller event, stage 1 publishes the event to the pub/sub
broker and stage 2 forwards the same event to the `Next` handler. -/
def handlerChain (r : EventReceiver) : List (StageKind × Sink) :=
  [(StageKind.publish, r.broker), (StageKind.forward, r.next)]

/-! ## Lifecycle trace model of run() (src/main.go lines 320-389) -/

/-- The lifecycle events `run()` performs, in the order it performs them. -/
inductive Ev
  | storeRead
  | storeWrite
  | storeClose
  | certGenAttempt
  | httpServerStart
  | sysVarColStart
  | prgColStart
  | mqttBrokerStart
  | wsRegister
  | buildEventChain
  | reGaDOMStart
  | deviceColStart
  | interconStart
  | interconStop
  | deviceColStop
  | reGaDOMStop
  | mqttBrokerStop
  | prgColStop
  | sysVarColStop
  | httpServerShutdown
deriving DecidableEq, Repr

/-- Trace of `startupBase` (lines 174-220): starts the HTTP(S) server. -/
def startupBaseTrace : List Ev := [Ev.httpServerStart]

/-- Trace of `startupApp` (lines 226-309), in source order: start the
system-variable collection, the program collection and the MQTT broker,
register the websocket proxy, build the event-forwarding chain
(`mqtt.EventReceiver`), start the ReGaDOM explorer, start the device
collection, and start the Interconnector last. -/
def startupAppTrace : List Ev :=
  [Ev.sysVarColStart, Ev.prgColStart, Ev.mqttBrokerStart, Ev.wsRegister,
   Ev.buildEventChain, Ev.reGaDOMStart, Ev.deviceColStart, Ev.interconStart]

/-- Trace of `shutdownApp` (lines 311-318), in source order. -/
def shutdownAppTrace : List Ev :=
  [Ev.interconStop, Ev.deviceColStop, Ev.reGaDOMStop, Ev.mqttBrokerStop,
   Ev.prgColStop, Ev.sysVarColStop]

/-- Trace of `shutdownBase` (lines 222-224). -/
def shutdownBaseTrace : List Ev := [Ev.httpServerShutdown]

/-- Trace of the certificate bootstrap: the generator runs exactly when
the presence test fails. -/
def certTrace (fs : FS) : List Ev :=
  if certPairPresent fs then [] else [Ev.certGenAttempt]

/-- Outcome of the wait phase: which of the termination signal and the
fatal-error channel is ready (`both` carries the nondeterministic choice
the select makes when both are ready at once). -/
inductive WaitOutcome
  | sigOnly
  | errOnly (e : String)
  | both (e : String) (sigSelected : Bool)
deriving DecidableEq, Repr

/-- The branch the wait-select takes. -/
inductive Branch
  | sig
  | fatalErr (e : String)
deriving DecidableEq, Repr

/-- The wait-select of `run()` (lines 365-371): takes the only ready
branch, and when both are ready takes exactly the one the runtime
chooses. -/
def selectBranch : WaitOutcome → Branch
  | .sigOnly => .sig
  | .errOnly e => .fatalErr e
  | .both e b => if b then .sig else .fatalErr e

/-- Environment of one execution of `run()`: the outcome of
`store.Read()` inside `configure()`, the initial file system, the
configured host name, the current time, the outcome of certificate
generation, and the wait-phase outcome. -/
structure RunEnv where
  configureErr : Option String
  fs : FS
  hostName : String
  now : Nat
  genErr : Option String
  wait : WaitOutcome

/-- Result of one execution of `run()`: the trace of lifecycle events in
the order performed, the returned error, and the final file system. -/
structure RunResult where
  trace : List Ev
  result : Option String
  fs : FS

/-- `run()` (lines 320-372). If `configure()` fails its error is returned
at once: no defer beyond the shutdown log message is registered yet, so
nothing else happens. After `configure()` succeeds, `store.Write()` and
`store.Close()` are deferred, so they run on every exit. If
`certificates()` fails, its error is returned with only the deferred store
write/close running. Otherwise `startupBase` and `startupApp` run (each
deferring its shutdown), the wait-select picks a branch, and the deferred
calls unwind in reverse registration order: `shutdownApp`, `shutdownBase`,
then the store write/close. -/
def runApp (env : RunEnv) : RunResult :=
  match env.configureErr with
  | some e => { trace := [Ev.storeRead], result := some e, fs := env.fs }
  | none =>
    match certificates env.fs env.hostName env.now env.genErr with
    | (some e, fs') =>
      { trace := [Ev.storeRead] ++ certTrace env.fs ++ [Ev.storeWrite, Ev.storeClose]
        result := some e
        fs := fs' }
    | (none, fs') =>
      { trace := [Ev.storeRead] ++ certTrace env.fs ++ startupBaseTrace ++ startupAppTrace
          ++ shutdownAppTrace ++ shutdownBaseTrace ++ [Ev.storeWrite, Ev.storeClose]
        result :=
          match selectBranch env.wait with
          | .sig => none
          | .fatalErr e => some e
        fs := fs' }

/-- `main()` (lines 374-389): exit code 0 when `run()` returns nil,
1 otherwise. -/
def mainExitCode (env : RunEnv) : Nat :=
  match (runApp env).result with
  | none => 0
  | some _ => 1

/-! ## Concrete environments used as witnesses -/

/-- A file system where every file exists and stats cleanly. -/
def fsAllOk : FS := fun _ => { content := some "existing", stat := StatRes.ok }

/-- A file system with no files at all. -/
def fsEmpty : FS := fun _ => { content := none, stat := StatRes.errNotExist }

/-- A file system where only the server certificate file exists (the
server key file is missing). -/
def fsOnlyCert : FS := fun name =>
  if name = serverCertFile then { content := some "OLD", stat := StatRes.ok }
  else { content := none, stat := StatRes.errNotExist }

/-- A file system where `os.Stat` fails with a non-NotExist error (e.g.
a permission error) on every file. -/
def fsStatBroken : FS := fun _ => { content := none, stat := StatRes.errOther }

/-! ## Theorems -/

/-- C1: In `startupApp`, the event-forwarding chain handles every raw
controller event by first publishing to the MQTT broker and then
forwarding to the device collection; this chain is built before the device
collection and the Interconnector are started, and the Interconnector is
started last of all subsystems. -/
theorem C1_event_chain_built_before_producers :
    handlerChain mqttReceiver
        = [(StageKind.publish, Sink.mqttBroker), (StageKind.forward, Sink.deviceCol)]
      ∧ startupAppTrace.indexOf Ev.buildEventChain < startupAppTrace.indexOf Ev.deviceColStart
      ∧ startupAppTrace.indexOf Ev.buildEventChain < startupAppTrace.indexOf Ev.interconStart
      ∧ (startupBaseTrace ++ startupAppTrace).getLast? = some Ev.interconStart := by
  decide

/-- C8: The CORS policy of `startupBase`: an empty configured origin list
yields allow-all-origins without credentials; a non-empty list yields
exactly the configured origins with credentials permitted; and credentials
are never permitted together with the wildcard (all-origins) policy. -/
theorem C8_cors_policy (origins : List String) :
    (origins = [] →
        (corsPolicy origins).allowAllOrigins = true
          ∧ (corsPolicy origins).allowCredentials = false)
      ∧ (origins ≠ [] →
        (corsPolicy origins).allowAllOrigins = false
          ∧ (corsPolicy origins).allowedOrigins = origins
          ∧ (corsPolicy origins).allowCredentials = true)
      ∧ ((corsPolicy origins).allowCredentials = true →
        (corsPolicy origins).allowAllOrigins = false) := by
  cases origins <;> simp [corsPolicy]

/-- Witness for C8 at the empty list and at a concrete singleton list. -/
theorem C8_cors_policy_witness :
    ((corsPolicy []).allowAllOrigins = true ∧ (corsPolicy []).allowCredentials = false)
      ∧ ((corsPolicy ["https://example.org"]).allowedOrigins = ["https://example.org"]
        ∧ (corsPolicy ["https://example.org"]).allowCredentials = true) :=
  ⟨(C8_cors_policy []).1 rfl,
   ((C8_cors_policy ["https://example.org"]).2.1 (by simp)).2⟩

/-- After a successful generation both server files are present, so the
presence test of `certificates()` succeeds. -/
lemma certPairPresent_generate (hostName : String) (now : Nat) (fs : FS) :
    certPairPresent (generate (certGenerator hostName now) fs) = true := by
  rfl

/-- A well-formed file system in which both server files exist passes the
presence test. -/
lemma certPairPresent_of_exists (fs : FS) (hwf : WFFS fs)
    (hc : ((fs serverCertFile).content).isSome)
    (hk : ((fs serverKeyFile).content).isSome) :
    certPairPresent fs = true := by
  have hc' := hwf serverCertFile hc
  have hk' := hwf serverKeyFile hk
  unfold certPairPresent
  cases hs : (fs serverCertFile).stat <;> cases ht : (fs serverKeyFile).stat <;>
    first
      | rfl
      | exact absurd hs hc'
      | exact absurd ht hk'

/-- C5: `certificates()` is idempotent: on a well-formed file system where
both the server certificate and the server key file exist it returns nil
and touches nothing; and after a first successful invocation a second
consecutive invocation (any arguments) changes nothing, leaving all four
certificate files identical. -/
theorem C5_certificates_idempotent (fs : FS) (host1 host2 : String) (now1 now2 : Nat)
    (genErr1 genErr2 : Option String) (hwf : WFFS fs) :
    (((fs serverCertFile).content).isSome → ((fs serverKeyFile).content).isSome →
        certificates fs host1 now1 genErr1 = (none, fs))
      ∧ ((certificates fs host1 now1 none).1 = none
        ∧ certificates (certificates fs host1 now1 none).2 host2 now2 genErr2
            = (none, (certificates fs host1 now1 none).2)) := by
  constructor
  · intro hc hk
    have hp := certPairPresent_of_exists fs hwf hc hk
    simp [certificates, hp]
  · cases hp : certPairPresent fs
    · simp [certificates, hp, certPairPresent_generate]
    · simp [certificates, hp]

/-- Witness for C5: on a file system where every file exists,
`certificates()` returns nil and changes nothing, even when the generator
would fail. -/
theorem C5_certificates_idempotent_witness :
    certificates fsAllOk "myhost" 7 (some "iofail") = (none, fsAllOk) :=
  (C5_certificates_idempotent fsAllOk "myhost" "other" 7 8 (some "iofail") none
      (fun _ _ => by simp [fsAllOk])).1 (by simp [fsAllOk]) (by simp [fsAllOk])

/-- C6 counterexample: on a file system where the server certificate file
exists (contents `"OLD"`) but the server key file is missing,
`certificates()` regenerates and overwrites the existing server
certificate file, so its contents change — refuting the claim that every
certificate file existing before the call keeps its contents. -/
theorem C6_counterexample :
    (fsOnlyCert serverCertFile).content = some "OLD"
      ∧ ((certificates fsOnlyCert "myhost" 7 none).2 serverCertFile).content ≠ some "OLD" := by
  constructor
  · rfl
  · decide

/-- C6 (amended): `certificates()` never overwrites a complete existing
pair: on a well-formed file system where both the server certificate and
the server key file exist, all four certificate files are unchanged. -/
theorem C6_no_overwrite_when_pair_present (fs : FS) (hostName : String) (now : Nat)
    (genErr : Option String) (hwf : WFFS fs)
    (hc : ((fs serverCertFile).content).isSome)
    (hk : ((fs serverKeyFile).content).isSome) :
    (certificates fs hostName now genErr).2 caCertFile = fs caCertFile
      ∧ (certificates fs hostName now genErr).2 caKeyFile = fs caKeyFile
      ∧ (certificates fs hostName now genErr).2 serverCertFile = fs serverCertFile
      ∧ (certificates fs hostName now genErr).2 serverKeyFile = fs serverKeyFile := by
  have hp := certPairPresent_of_exists fs hwf hc hk
  simp [certificates, hp]

/-- Witness for the amended C6 on a file system where every file exists. -/
theorem C6_no_overwrite_witness :
    (certificates fsAllOk "myhost" 7 none).2 serverCertFile = fsAllOk serverCertFile :=
  (C6_no_overwrite_when_pair_present fsAllOk "myhost" 7 none
      (fun _ _ => by simp [fsAllOk]) (by simp [fsAllOk]) (by simp [fsAllOk])).2.2.1

/-- C7: when `certificates()` generates (here: the server key file is
missing), the generator it uses has `NotBefore = now`,
`NotAfter = now + tenYears` (the fixed ten-year window of line 140,
`10 * 365 * 24 * time.Hour`), exactly the configured host name, and the
application display name as organization; the written server and CA
certificates are those of this generator. -/
theorem C7_ten_year_window (hostName : String) (now : Nat) (fs : FS)
    (hmiss : (fs serverKeyFile).stat = StatRes.errNotExist) :
    (certGenerator hostName now).notBefore = now
      ∧ (certGenerator hostName now).notAfter = now + tenYears
      ∧ (certGenerator hostName now).hosts = [hostName]
      ∧ (certGenerator hostName now).organization = appDisplayName
      ∧ ((certificates fs hostName now none).2 serverCertFile).content
          = some (serverCertContent (certGenerator hostName now))
      ∧ ((certificates fs hostName now none).2 caCertFile).content
          = some (caCertContent (certGenerator hostName now)) := by
  have hp : certPairPresent fs = false := by
    simp [certPairPresent, hmiss, isNotExist]
  refine ⟨rfl, rfl, rfl, rfl, ?_, ?_⟩ <;> simp [certificates, hp] <;> rfl

/-- Witness for C7 on the empty file system. -/
theorem C7_ten_year_window_witness :
    (certGenerator "myhost" 1000).notAfter = 1000 + tenYears
      ∧ ((certificates fsEmpty "myhost" 1000 none).2 serverCertFile).content
          = some (serverCertContent (certGenerator "myhost" 1000)) := by
  have h := C7_ten_year_window "myhost" 1000 fsEmpty rfl
  exact ⟨h.2.1, h.2.2.2.2.1⟩

/-- C9: if `os.Stat` fails with an error other than not-exist on both the
server certificate and the server key file, `certificates()` treats the
pair as present: it returns nil, generates nothing, and swallows the stat
errors. -/
theorem C9_stat_error_treated_as_present (fs : FS) (hostName : String) (now : Nat)
    (genErr : Option String)
    (hc : (fs serverCertFile).stat = StatRes.errOther)
    (hk : (fs serverKeyFile).stat = StatRes.errOther) :
    certificates fs hostName now genErr = (none, fs) := by
  have hp : certPairPresent fs = true := by
    simp [certPairPresent, hc, hk, isNotExist]
  simp [certificates, hp]

/-- Witness for C9 on a file system whose stats all fail with a
permission-style error. -/
theorem C9_stat_error_witness :
    certificates fsStatBroken "myhost" 7 none = (none, fsStatBroken) :=
  C9_stat_error_treated_as_present fsStatBroken "myhost" 7 none rfl rfl

/-- A run environment that configures fine, generates certificates and
terminates by signal. -/
def envSig : RunEnv :=
  { configureErr := none, fs := fsEmpty, hostName := "myhost", now := 7,
    genErr := none, wait := WaitOutcome.sigOnly }

/-- A run environment whose configuration read fails. -/
def envConfigFail : RunEnv :=
  { configureErr := some "config parse error", fs := fsEmpty, hostName := "myhost", now := 7,
    genErr := none, wait := WaitOutcome.sigOnly }

/-- A run environment where certificate generation fails right after a
successful configuration. -/
def envCertFail : RunEnv :=
  { configureErr := none, fs := fsEmpty, hostName := "myhost", now := 7,
    genErr := some "io error", wait := WaitOutcome.sigOnly }

/-- C2: on every exit of `run()` after startup began (configuration and
certificate bootstrap succeeded), the trace ends with the shutdown steps
in strict reverse of start order — Interconnector, device collection,
ReGaDOM explorer, MQTT broker, program collection, system-variable
collection, then the base HTTP transport — followed unconditionally by
`store.Write()` and `store.Close()`. -/
theorem C2_reverse_shutdown (env : RunEnv)
    (hc : env.configureErr = none)
    (hs : (certificates env.fs env.hostName env.now env.genErr).1 = none) :
    (runApp env).trace
      = ([Ev.storeRead] ++ certTrace env.fs ++ startupBaseTrace ++ startupAppTrace)
        ++ [Ev.interconStop, Ev.deviceColStop, Ev.reGaDOMStop, Ev.mqttBrokerStop,
            Ev.prgColStop, Ev.sysVarColStop, Ev.httpServerShutdown,
            Ev.storeWrite, Ev.storeClose] := by
  rcases hcert : certificates env.fs env.hostName env.now env.genErr with ⟨r, fs'⟩
  rw [hcert] at hs
  cases r with
  | some e => exact absurd hs (by simp)
  | none =>
    simp [runApp, hc, hcert, startupBaseTrace, startupAppTrace, shutdownAppTrace,
      shutdownBaseTrace]

/-- Witness for C2 in the signal-terminated environment. -/
theorem C2_reverse_shutdown_witness :
    (runApp envSig).trace
      = ([Ev.storeRead] ++ certTrace envSig.fs ++ startupBaseTrace ++ startupAppTrace)
        ++ [Ev.interconStop, Ev.deviceColStop, Ev.reGaDOMStop, Ev.mqttBrokerStop,
            Ev.prgColStop, Ev.sysVarColStop, Ev.httpServerShutdown,
            Ev.storeWrite, Ev.storeClose] :=
  C2_reverse_shutdown envSig rfl rfl

/-- C3: `run()` returns nil exactly when configuration and certificate
bootstrap succeed and the wait-select takes the signal branch; the process
exits 0 exactly when `run()` returns nil; and with a signal and a fatal
error ready at once the select takes exactly one of the two branches. -/
theorem C3_exit_contract (env : RunEnv) :
    ((runApp env).result = none ↔
        env.configureErr = none
          ∧ (certificates env.fs env.hostName env.now env.genErr).1 = none
          ∧ selectBranch env.wait = Branch.sig)
      ∧ (mainExitCode env = 0 ↔ (runApp env).result = none)
      ∧ (∀ e b, Xor' (selectBranch (WaitOutcome.both e b) = Branch.sig)
          (selectBranch (WaitOutcome.both e b) = Branch.fatalErr e)) := by
  refine ⟨?_, ?_, ?_⟩
  · cases hc : env.configureErr with
    | some e => simp [runApp, hc]
    | none =>
      rcases hcert : certificates env.fs env.hostName env.now env.genErr with ⟨r, fs'⟩
      cases r with
      | some e => simp [runApp, hc, hcert]
      | none =>
        cases hb : selectBranch env.wait with
        | sig => simp [runApp, hc, hcert, hb]
        | fatalErr e => simp [runApp, hc, hcert, hb]
  · cases hr : (runApp env).result <;> simp [mainExitCode, hr]
  · intro e b
    cases b <;> simp [selectBranch, Xor']

/-- Witness for C3: in the signal-terminated environment `run()` returns
nil, obtained through the exit-contract equivalence. -/
theorem C3_exit_contract_witness : (runApp envSig).result = none :=
  (C3_exit_contract envSig).1.mpr ⟨rfl, rfl, rfl⟩

/-- C4: when the configuration read fails, `run()` returns that error
immediately: the trace holds only the store read — no certificate
bootstrap, no file creation, no listener start — the file system is
untouched and the process exits 1. -/
theorem C4_config_error_aborts_early (env : RunEnv) (e : String)
    (h : env.configureErr = some e) :
    (runApp env).result = some e
      ∧ (runApp env).trace = [Ev.storeRead]
      ∧ (runApp env).fs = env.fs
      ∧ mainExitCode env = 1
      ∧ Ev.certGenAttempt ∉ (runApp env).trace
      ∧ Ev.httpServerStart ∉ (runApp env).trace
      ∧ Ev.mqttBrokerStart ∉ (runApp env).trace := by
  simp [runApp, mainExitCode, h]

/-- Witness for C4 in the environment with a failing configuration read. -/
theorem C4_config_error_witness :
    (runApp envConfigFail).result = some "config parse error"
      ∧ mainExitCode envConfigFail = 1 := by
  have h := C4_config_error_aborts_early envConfigFail "config parse error" rfl
  exact ⟨h.1, h.2.2.2.1⟩

/-- C10: once `configure()` has succeeded, every exit path of `run()` —
including a certificate-bootstrap failure before any subsystem starts —
ends with `store.Write()` and `store.Close()`. -/
theorem C10_store_write_on_every_exit (env : RunEnv) (h : env.configureErr = none) :
    ∃ pre, (runApp env).trace = pre ++ [Ev.storeWrite, Ev.storeClose] := by
  rcases hcert : certificates env.fs env.hostName env.now env.genErr with ⟨r, fs'⟩
  cases r with
  | some e =>
    refine ⟨[Ev.storeRead] ++ certTrace env.fs, ?_⟩
    simp [runApp, h, hcert]
  | none =>
    refine ⟨[Ev.storeRead] ++ certTrace env.fs ++ startupBaseTrace ++ startupAppTrace
      ++ shutdownAppTrace ++ shutdownBaseTrace, ?_⟩
    simp [runApp, h, hcert]

/-- Witness for C10 in the environment where certificate generation fails
right after a successful configuration. -/
theorem C10_store_write_witness :
    ∃ pre, (runApp envCertFail).trace = pre ++ [Ev.storeWrite, Ev.storeClose] :=
  C10_store_write_on_every_exit envCertFail rfl

end CcuJack
